import Mathlib

/-!
Shallow embedding of the core ephemeris and chart-mapping engine of
`src/horoscope.py` (class `EnhancedAstrologyCalculator`), together with
theorems settling the frozen claims about it.

Machine floats are modelled by real numbers; Python `x % m` on reals is
modelled by `fmod` (`x - m * ⌊x / m⌋`, which agrees with Python's `%` for a
positive modulus), Python `int(x)` truncation toward zero by `truncInt`, and
Python `x // m` (floor division, followed by the no-op `int`) by `⌊x / m⌋`.
The Python standard-library pieces (`datetime.strptime`, `datetime`
subtraction of a `timedelta`, `math.atan2`) are modelled respectively by
abstract function parameters `parse` (returning `none` where `strptime`
raises `ValueError`) and `subHours` (returning `none` where the subtraction
raises `OverflowError` at the `datetime` range boundary, e.g. for
`datetime(1, 1, 1, 0, 0) - timedelta(hours=5.5)`), and by an explicit
`atan2` following the C99/Python semantics on reals.
-/

namespace Horoscope

noncomputable section

/-- Degrees to radians, `math.radians`. -/
def radians (d : ℝ) : ℝ := d * (Real.pi / 180)

/-- Radians to degrees, `math.degrees`. -/
def degrees (r : ℝ) : ℝ := r * 180 / Real.pi

/-- Python float modulo `x % m` for a positive modulus: `x - m * floor (x / m)`. -/
def fmod (x m : ℝ) : ℝ := x - m * ⌊x / m⌋

/-- Python `int()` applied to a real: truncation toward zero. -/
def truncInt (x : ℝ) : ℤ := if 0 ≤ x then ⌊x⌋ else -⌊-x⌋

/-- Two-argument arctangent with the C99/Python `math.atan2` quadrant rules
(signed zeros of floats are not modelled; `atan2 0 x = π` for `x < 0`,
`atan2 0 0 = 0`). -/
def atan2 (y x : ℝ) : ℝ :=
  if 0 < x then Real.arctan (y / x)
  else if x < 0 ∧ 0 ≤ y then Real.arctan (y / x) + Real.pi
  else if x < 0 then Real.arctan (y / x) - Real.pi
  else if 0 < y then Real.pi / 2
  else if y < 0 then -(Real.pi / 2)
  else 0

/-- `calculate_lahiri_ayanamsa`: polynomial Lahiri ayanamsa in Julian
centuries since J2000.0. -/
def calculate_lahiri_ayanamsa (jd : ℝ) : ℝ :=
  let T := (jd - 2451545.0) / 36525.0
  23.85 + (0.013972 * T) + (0.000013 * T * T)

/-- `calculate_sun_longitude`: sidereal solar longitude. -/
def calculate_sun_longitude (jd : ℝ) : ℝ :=
  let T := (jd - 2451545.0) / 36525.0
  let L0 := 280.46646 + 36000.76983 * T + 0.0003032 * T * T
  let M := 357.52911 + 35999.05029 * T - 0.0001537 * T * T
  let M_rad := radians M
  let C := (1.914602 - 0.004817 * T - 0.000014 * T * T) * Real.sin M_rad
    + (0.019993 - 0.000101 * T) * Real.sin (2 * M_rad)
    + 0.000289 * Real.sin (3 * M_rad)
  let true_longitude := L0 + C
  let omega := 125.04 - 1934.136 * T
  let apparent_longitude := true_longitude - 0.00569 - 0.00478 * Real.sin (radians omega)
  let ayanamsa := calculate_lahiri_ayanamsa jd
  fmod (apparent_longitude - ayanamsa) 360

/-- `calculate_moon_longitude`: sidereal lunar longitude from the ten-term
periodic series. -/
def calculate_moon_longitude (jd : ℝ) : ℝ :=
  let T := (jd - 2451545.0) / 36525.0
  let L_prime := 218.3164477 + 481267.88123421 * T - 0.0015786 * T * T
  let D := 297.8501921 + 445267.1114034 * T - 0.0018819 * T * T
  let M := 357.5291092 + 35999.0502909 * T - 0.0001536 * T * T
  let M_prime := 134.9633964 + 477198.8675055 * T + 0.0087414 * T * T
  let F := 93.2720950 + 483202.0175233 * T - 0.0036539 * T * T
  let D_rad := radians D
  let M_rad := radians M
  let M_prime_rad := radians M_prime
  let F_rad := radians F
  let longitude := L_prime
    + 6.288774 * Real.sin M_prime_rad
    + 1.274027 * Real.sin (2 * D_rad - M_prime_rad)
    + 0.658314 * Real.sin (2 * D_rad)
    + 0.213618 * Real.sin (2 * M_prime_rad)
    - 0.185116 * Real.sin M_rad
    - 0.114332 * Real.sin (2 * F_rad)
    + 0.058793 * Real.sin (2 * D_rad - 2 * M_prime_rad)
    + 0.057066 * Real.sin (2 * D_rad - M_rad - M_prime_rad)
    + 0.053322 * Real.sin (2 * D_rad + M_prime_rad)
    + 0.045758 * Real.sin (2 * D_rad - M_rad)
  let ayanamsa := calculate_lahiri_ayanamsa jd
  fmod (longitude - ayanamsa) 360

/-- Orbital elements of one body from `self.planetary_elements` (the unused
`M` entry of the Sun row is not carried). -/
structure OrbitalElements where
  L : ℝ
  dL : ℝ
  e : ℝ

/-- The `self.planetary_elements` table; `none` models `planet not in
self.planetary_elements`. -/
def planetary_elements : String → Option OrbitalElements
  | "Sun" => some ⟨280.46646, 36000.76983, 0.016708634⟩
  | "Moon" => some ⟨218.3164477, 481267.88123421, 0.0549⟩
  | "Mercury" => some ⟨252.250906, 149472.6746358, 0.20563175⟩
  | "Venus" => some ⟨181.979801, 58517.8156760, 0.00677323⟩
  | "Mars" => some ⟨355.433, 19140.299, 0.09341233⟩
  | "Jupiter" => some ⟨34.351519, 3034.9056606, 0.04839266⟩
  | "Saturn" => some ⟨50.077444, 1222.1138488, 0.05415060⟩
  | _ => none

/-- The per-planet mean-anomaly if/elif chain of `calculate_planet_longitude`
(the `else` arm returns the mean longitude `L`). -/
def mean_anomaly (planet : String) (L T : ℝ) : ℝ :=
  if planet = "Mercury" then 174.7948 + 149472.6746358 * T
  else if planet = "Venus" then 50.4161 + 58517.8156760 * T
  else if planet = "Mars" then 19.3870 + 19140.299 * T
  else if planet = "Jupiter" then 20.0202 + 3034.9056606 * T
  else if planet = "Saturn" then 317.0207 + 1222.1138488 * T
  else L

/-- One fixed-point step `E_new = M + e * sin E` of Kepler's equation. -/
def keplerStep (M_rad e E : ℝ) : ℝ := M_rad + e * Real.sin E

/-- The `for _ in range(10)` loop body: compute `E_new`, break if
`|E_new - E| < 1e-8`, otherwise continue with `E_new`. -/
def keplerLoop (M_rad e : ℝ) : ℕ → ℝ → ℝ
  | 0, E => E
  | n + 1, E =>
    let E_new := keplerStep M_rad e E
    if |E_new - E| < 1e-8 then E else keplerLoop M_rad e n E_new

/-- Kepler solver: start at `E = M + e * sin M`, then run the capped loop. -/
def solveKepler (M_rad e : ℝ) : ℝ :=
  keplerLoop M_rad e 10 (M_rad + e * Real.sin M_rad)

/-- The uncorrected (pre-perturbation) `true_longitude` computed by
`calculate_planet_longitude` for a planet present in the elements table. -/
def keplerTrueLongitude (planet : String) (jd : ℝ) : ℝ :=
  match planetary_elements planet with
  | none => 0.0
  | some elements =>
    let T := (jd - 2451545.0) / 36525.0
    let L := elements.L + elements.dL * T
    let M := fmod (mean_anomaly planet L T) 360
    let M_rad := radians M
    let e := elements.e
    let E := solveKepler M_rad e
    let nu := 2 * atan2 (Real.sqrt (1 + e) * Real.sin (E / 2))
      (Real.sqrt (1 - e) * Real.cos (E / 2))
    fmod (L + degrees nu - M) 360

/-- The value computed by `calculate_planet_longitude(planet, jd, precomputed)`.
The `precomputed` dict is used only through membership tests and through
inserting the current planet before the one recursive call, so it is modelled
as a `Finset String`; `fuel` bounds the Jupiter/Saturn recursion depth (the
source recursion provably stops after one level, see the fuel lemmas). -/
def calcPlanetAux : ℕ → String → ℝ → Finset String → ℝ
  | fuel, planet, jd, precomputed =>
    match planetary_elements planet with
    | none => 0.0
    | some _ =>
      let true_longitude := keplerTrueLongitude planet jd
      let corrected :=
        match fuel with
        | 0 => true_longitude
        | fuel + 1 =>
          if planet = "Jupiter" ∧ "Saturn" ∉ precomputed then
            let saturn_long := calcPlanetAux fuel "Saturn" jd (insert "Jupiter" precomputed)
            true_longitude + 0.33 * Real.sin (radians (2 * (true_longitude - saturn_long)))
          else if planet = "Saturn" ∧ "Jupiter" ∉ precomputed then
            let jupiter_long := calcPlanetAux fuel "Jupiter" jd (insert "Saturn" precomputed)
            true_longitude + 0.81 * Real.sin (radians (2 * (true_longitude - jupiter_long)))
          else true_longitude
      fmod (corrected - calculate_lahiri_ayanamsa jd) 360

/-- `calculate_planet_longitude`: fuel 2 is enough for the one-level mutual
Jupiter/Saturn perturbation (any fuel ≥ 1 gives the same value). -/
def calculate_planet_longitude (planet : String) (jd : ℝ) (precomputed : Finset String) : ℝ :=
  calcPlanetAux 2 planet jd precomputed

/-- Caller-visible state of the `precomputed` dict after a call to
`calculate_planet_longitude`. The line `if not precomputed: precomputed = {}`
rebinds the parameter to a fresh dict whenever the caller passed an empty (or
missing) one, so in that case the caller's dict is never mutated; otherwise
the current planet is added exactly when a perturbation branch is entered. -/
def calcPlanetState (planet : String) (precomputed : Finset String) : Finset String :=
  match planetary_elements planet with
  | none => precomputed
  | some _ =>
    if precomputed = ∅ then precomputed
    else if planet = "Jupiter" ∧ "Saturn" ∉ precomputed then insert "Jupiter" precomputed
    else if planet = "Saturn" ∧ "Jupiter" ∉ precomputed then insert "Saturn" precomputed
    else precomputed

/-- `calculate_ascendant`: sidereal ascendant from local sidereal time,
obliquity and latitude. There is no error path: the formula is applied at
every latitude, including ±90°. -/
def calculate_ascendant (jd lat lon : ℝ) : ℝ :=
  let T := (jd - 2451545.0) / 36525.0
  let gmst := fmod (280.46061837 + 360.98564736629 * (jd - 2451545.0)
    + 0.000387933 * T * T - T * T * T / 38710000.0) 360
  let lst := fmod (gmst + lon) 360
  let lst_rad := radians lst
  let lat_rad := radians lat
  let obliquity := 23.4393 - 0.0130042 * T - 0.0000164 * T * T + 0.0000504 * T * T * T
  let obliquity_rad := radians obliquity
  let y := -Real.cos lst_rad
  let x := Real.sin lst_rad * Real.cos obliquity_rad + Real.tan lat_rad * Real.sin obliquity_rad
  let ascendant := degrees (atan2 y x)
  let ascendant := if ascendant < 0 then ascendant + 360 else ascendant
  let ayanamsa := calculate_lahiri_ayanamsa jd
  fmod (ascendant - ayanamsa) 360

/-- `calculate_rahu_ketu`: mean lunar node (Rahu) and its antipode (Ketu),
both sidereal. -/
def calculate_rahu_ketu (jd : ℝ) : ℝ × ℝ :=
  let T := (jd - 2451545.0) / 36525.0
  let omega := 125.0445479 - 1934.1362891 * T + 0.0020754 * T * T + T * T * T / 467441.0
  let rahu_longitude := fmod omega 360
  let ketu_longitude := fmod (rahu_longitude + 180) 360
  let ayanamsa := calculate_lahiri_ayanamsa jd
  let rahu_sidereal := fmod (rahu_longitude - ayanamsa) 360
  let ketu_sidereal := fmod (ketu_longitude - ayanamsa) 360
  (rahu_sidereal, ketu_sidereal)

/-- Keys of `self.zodiac_signs`, in insertion order. -/
def zodiac_signs : List String :=
  ["Aries", "Taurus", "Gemini", "Cancer", "Leo", "Virgo",
   "Libra", "Scorpio", "Sagittarius", "Capricorn", "Aquarius", "Pisces"]

/-- The `self.nakshatras` list (27 Tamil names). -/
def nakshatras : List String :=
  ["அஸ்வினி", "பரணி", "கிருத்திகை", "ரோகிணி", "மிருகசீரிடம்",
   "ஆருத்ரா", "புனர்வசு", "புஷ்யம்", "ஆஸ்லேஷா", "மகம்",
   "பூர்வபல்குனி", "உத்திரபல்குனி", "ஹஸ்தம்", "சித்திரை", "சுவாதி",
   "விசாகம்", "அனுஷம்", "ஜெய்ஷ்டா", "மூலம்", "பூராஷாடா",
   "உத்திராஷாடா", "திருவோணம்", "அவிட்டம்", "சதயம்", "பூரட்டாதி",
   "உத்திரட்டாதி", "ரேவதி"]

/-- `get_zodiac_sign`: `signs[int(longitude // 30) % 12]`. -/
def get_zodiac_sign (longitude : ℝ) : String :=
  zodiac_signs.getD ((⌊longitude / 30⌋ % 12).toNat) ""

/-- `get_nakshatra`: nakshatra name and pada. -/
def get_nakshatra (longitude : ℝ) : String × ℤ :=
  let nakshatra_span : ℝ := 360 / 27
  let nakshatra_index := truncInt (longitude / nakshatra_span)
  let pada := truncInt (fmod longitude nakshatra_span / (nakshatra_span / 4)) + 1
  (nakshatras.getD ((nakshatra_index % 27).toNat) "", pada)

/-- `get_house_from_ascendant`: equal-house number from the ascendant. -/
def get_house_from_ascendant (planet_longitude ascendant : ℝ) : ℤ :=
  let house_longitude := fmod (planet_longitude - ascendant + 360) 360
  let house := ⌊house_longitude / 30⌋ + 1
  if house ≤ 12 then house else house - 12

/-- The `navamsa_sign_num` computed inside `calculate_navamsa_position`:
sign index, degree inside the sign, segment `int(degree_in_sign / 3.333333)`,
and the movable/fixed/dual offset branches. -/
def navamsa_sign_num (longitude : ℝ) : ℤ :=
  let sign_num := ⌊longitude / 30⌋
  let degree_in_sign := fmod longitude 30
  let navamsa_num := truncInt (degree_in_sign / 3.333333)
  if sign_num % 3 = 0 then (sign_num + navamsa_num) % 12
  else if sign_num % 3 = 1 then (sign_num + 8 + navamsa_num) % 12
  else (sign_num + 4 + navamsa_num) % 12

/-- `calculate_navamsa_position`: navamsa house (against the navamsa
ascendant) and navamsa sign name. -/
def calculate_navamsa_position (longitude ascendant_navamsa : ℝ) : ℤ × String :=
  let nsn := navamsa_sign_num longitude
  let navamsa_house := ⌊fmod ((nsn : ℝ) * 30 - ascendant_navamsa + 360) 360 / 30⌋ + 1
  (navamsa_house, zodiac_signs.getD (nsn.toNat % 12) "")

/-- Result of Python's `datetime.strptime(f"{date} {time}", "%Y-%m-%d %H:%M")`
(seconds and microseconds are zero for this format but a combined fractional
second field is kept, as the source reads both). -/
structure PyDateTime where
  year : ℤ
  month : ℤ
  day : ℤ
  hour : ℤ
  minute : ℤ
  second : ℝ

/-- `calculate_accurate_julian_day` applied to the already-UTC datetime.
The function's first statement, the stdlib subtraction
`date_time - timedelta(hours=tz_offset)`, is supplied by the abstract
fallible `subHours` parameter at the call site: when it raises
`OverflowError` (modelled by `none`), the exception propagates out of
`calculate_accurate_julian_day` to the orchestrator's handler. -/
def calculate_accurate_julian_day (utc : PyDateTime) : ℝ :=
  let year := if utc.month ≤ 2 then utc.year - 1 else utc.year
  let month := if utc.month ≤ 2 then utc.month + 12 else utc.month
  let a := truncInt ((year : ℝ) / 100)
  let b := 2 - a + truncInt ((a : ℝ) / 4)
  let jd : ℝ := (truncInt (365.25 * ((year : ℝ) + 4716)) : ℝ)
    + (truncInt (30.6001 * ((month : ℝ) + 1)) : ℝ)
    + (utc.day : ℝ) + (b : ℝ) - 1524.5
  jd + ((utc.hour : ℝ) + (utc.minute : ℝ) / 60 + utc.second / 3600) / 24.0

/-- One body's entry in the `planets_data` dict of the chart. -/
structure Placement where
  longitude : ℝ
  sign : String
  house : ℤ
  nakshatra : String × ℤ
  navamsa_house : ℤ
  navamsa_sign : String

/-- The dict returned by `calculate_complete_chart` on success. -/
structure Chart where
  ascendant : ℝ
  ascendant_sign : String
  navamsa_ascendant : ℝ
  planets : List (String × Placement)
  coordinates : ℝ × ℝ
  timezone : ℝ
  julian_day : ℝ
  birth_date : String
  birth_time : String
  birth_place : String
  ayanamsa : ℝ

/-- The per-body block of `calculate_complete_chart` building one
`planets_data` entry from a longitude, the ascendant and the navamsa
ascendant. -/
def mkPlacement (planet_long ascendant navamsa_ascendant : ℝ) : Placement :=
  let nav := calculate_navamsa_position planet_long navamsa_ascendant
  { longitude := planet_long
    sign := get_zodiac_sign planet_long
    house := get_house_from_ascendant planet_long ascendant
    nakshatra := get_nakshatra planet_long
    navamsa_house := nav.1
    navamsa_sign := nav.2 }

/-- The `for planet in ['Mercury', 'Venus', 'Mars', 'Jupiter', 'Saturn']`
loop: each body is solved with the current `precomputed` dict, whose
caller-visible state is then threaded to the next iteration. -/
def planetFold (jd : ℝ) : List String → Finset String → List (String × ℝ)
  | [], _ => []
  | p :: rest, precomputed =>
    (p, calculate_planet_longitude p jd precomputed)
      :: planetFold jd rest (calcPlanetState p precomputed)

/-- The successful branch of `calculate_complete_chart`: ascendant, navamsa
ascendant, then the nine bodies in order Sun, Moon, Mercury, Venus, Mars,
Jupiter, Saturn, Rahu, Ketu. -/
def buildChart (date_obj : PyDateTime) (lat lon tz_offset : ℝ)
    (birth_date birth_time birth_place : String) : Chart :=
  let jd := calculate_accurate_julian_day date_obj
  let ascendant := calculate_ascendant jd lat lon
  let asc_sign_num := ⌊ascendant / 30⌋
  let asc_degree_in_sign := fmod ascendant 30
  let asc_navamsa_num := truncInt (asc_degree_in_sign / 3.333333)
  let navamsa_asc_sign_num :=
    if asc_sign_num % 3 = 0 then (asc_sign_num + asc_navamsa_num) % 12
    else if asc_sign_num % 3 = 1 then (asc_sign_num + 8 + asc_navamsa_num) % 12
    else (asc_sign_num + 4 + asc_navamsa_num) % 12
  let navamsa_ascendant := (navamsa_asc_sign_num : ℝ) * 30
  let sun_long := calculate_sun_longitude jd
  let moon_long := calculate_moon_longitude jd
  let five := planetFold jd ["Mercury", "Venus", "Mars", "Jupiter", "Saturn"] ∅
  let rahu_ketu := calculate_rahu_ketu jd
  let planets_data :=
    ("Sun", mkPlacement sun_long ascendant navamsa_ascendant)
    :: ("Moon", mkPlacement moon_long ascendant navamsa_ascendant)
    :: (five.map (fun q => (q.1, mkPlacement q.2 ascendant navamsa_ascendant)))
    ++ [("Rahu", mkPlacement rahu_ketu.1 ascendant navamsa_ascendant),
        ("Ketu", mkPlacement rahu_ketu.2 ascendant navamsa_ascendant)]
  { ascendant := ascendant
    ascendant_sign := get_zodiac_sign ascendant
    navamsa_ascendant := navamsa_ascendant
    planets := planets_data
    coordinates := (lat, lon)
    timezone := tz_offset
    julian_day := jd
    birth_date := birth_date
    birth_time := birth_time
    birth_place := birth_place
    ayanamsa := calculate_lahiri_ayanamsa jd }

/-- `calculate_complete_chart`. `parse` models `datetime.strptime` (returning
`none` when it raises `ValueError`, which the enclosing `try/except` turns
into an error dict), `subHours` models `date_time - timedelta(hours=tz)`
(returning `none` when it raises `OverflowError` at the `datetime` range
boundary — that subtraction is the first statement of
`calculate_accurate_julian_day`, so it runs after the city lookup and its
exception is also caught by the `except` handler), and `cities` models the
`self.cities` lookup table; the explicit `birth_place not in self.cities`
check yields the city error before any astronomical computation. The rest of
the body is total, so the handler has nothing further to catch. -/
def calculate_complete_chart (parse : String → String → Option PyDateTime)
    (subHours : PyDateTime → ℝ → Option PyDateTime)
    (cities : String → Option (ℝ × ℝ × ℝ))
    (birth_date birth_time birth_place : String) : Except String Chart :=
  match parse birth_date birth_time with
  | none => Except.error "Calculation error: unparseable date/time"
  | some date_obj =>
    match cities birth_place with
    | none => Except.error ("City " ++ birth_place ++ " not found in database")
    | some (lat, lon, tz_offset) =>
      match subHours date_obj tz_offset with
      | none => Except.error "Calculation error: date value out of range"
      | some utc =>
        Except.ok (buildChart utc lat lon tz_offset
          birth_date birth_time birth_place)

/-- The navamsa-sign formula exactly as the specification words it: the
segment is the index of the body's position among the nine equal 3°20′
divisions of its 30° sign (so a division by the exact width 10/3), combined
with the movable/fixed/dual offset table. Written from the spec only, for
comparison with `navamsa_sign_num` above. -/
def spec_navamsa_sign_num (longitude : ℝ) : ℤ :=
  let sign_index := ⌊longitude / 30⌋
  let segment := ⌊fmod longitude 30 / (10 / 3)⌋
  let offset : ℤ := if sign_index % 3 = 0 then 0 else if sign_index % 3 = 1 then 8 else 4
  (sign_index + offset + segment) % 12

/-- Concrete stand-in for `datetime.strptime` used by the C5 witness. -/
def wParse : String → String → Option PyDateTime := fun _ _ => some ⟨2000, 1, 1, 12, 0, 0⟩

/-- Concrete stand-in for the timedelta subtraction used by the C5 witness
(total on this input: no overflow for year-2000 dates). -/
def wSub : PyDateTime → ℝ → Option PyDateTime := fun d _ => some d

/-- Concrete stand-in for the city table used by the C5 witness. -/
def wCities : String → Option (ℝ × ℝ × ℝ) := fun _ => some (13.0827, 80.2707, 5.5)

/-- The chart produced on the C5 witness inputs. -/
def wChart : Chart :=
  match calculate_complete_chart wParse wSub wCities "2000-01-01" "12:00" "Chennai" with
  | Except.ok c => c
  | Except.error _ => ⟨0, "", 0, [], (0, 0), 0, 0, "", "", "", 0⟩

/-- Concrete stand-in for `datetime.strptime` on the C7 counterexample input
`"0001-01-01" "00:00"`: parsing succeeds, year 1 being valid for `%Y`. -/
def oParse : String → String → Option PyDateTime := fun _ _ => some ⟨1, 1, 1, 0, 0, 0⟩

/-- Concrete stand-in for the timedelta subtraction on the C7 counterexample
input: `datetime(1, 1, 1, 0, 0) - timedelta(hours=5.5)` falls below
`datetime.min` and raises `OverflowError`, modelled by `none`. -/
def oSub : PyDateTime → ℝ → Option PyDateTime := fun _ _ => none

/-- Concrete stand-in for the city table on the C7 counterexample input:
Chennai, `(13.0827, 80.2707, 5.5)` as in `self.cities`. -/
def oCities : String → Option (ℝ × ℝ × ℝ) := fun _ => some (13.0827, 80.2707, 5.5)

/-! ## Basic facts about `fmod` -/

theorem fmod_nonneg (x : ℝ) {m : ℝ} (hm : 0 < m) : 0 ≤ fmod x m := by
  have h1 : (⌊x / m⌋ : ℝ) ≤ x / m := Int.floor_le _
  have h2 : m * (⌊x / m⌋ : ℝ) ≤ m * (x / m) :=
    mul_le_mul_of_nonneg_left h1 hm.le
  have h3 : m * (x / m) = x := mul_div_cancel₀ x hm.ne.symm ▸ by
    field_simp
  simp only [fmod]
  nlinarith [h2, h3]

theorem fmod_lt (x : ℝ) {m : ℝ} (hm : 0 < m) : fmod x m < m := by
  have h1 : x / m < (⌊x / m⌋ : ℝ) + 1 := Int.lt_floor_add_one _
  have h2 : m * (x / m) < m * ((⌊x / m⌋ : ℝ) + 1) :=
    (mul_lt_mul_left hm).mpr h1
  have h3 : m * (x / m) = x := by field_simp
  simp only [fmod]
  nlinarith [h2, h3]

theorem fmod_eq_self {x m : ℝ} (hm : 0 < m) (h0 : 0 ≤ x) (h1 : x < m) :
    fmod x m = x := by
  have hfloor : ⌊x / m⌋ = 0 := by
    rw [Int.floor_eq_zero_iff]
    constructor
    · positivity
    · rw [div_lt_one hm] at *
      exact h1
  simp [fmod, hfloor]

theorem fmod_add_int_mul (x : ℝ) {m : ℝ} (hm : m ≠ 0) (k : ℤ) :
    fmod (x + m * k) m = fmod x m := by
  have harg : (x + m * k) / m = x / m + k := by field_simp; ring
  simp only [fmod, harg, Int.floor_add_int]
  push_cast
  ring

theorem fmod_sub_int (x : ℝ) : ∃ k : ℤ, fmod x 360 = x - 360 * k :=
  ⟨⌊x / 360⌋, rfl⟩

/-! ## Claim theorems -/

/-- C1: for every Julian Day (and for latitudes strictly between −90 and 90
in the case of the ascendant), every angular output of
`calculate_sun_longitude`, `calculate_moon_longitude`,
`calculate_planet_longitude` for a planet with tabulated elements, both
components of `calculate_rahu_ketu`, and `calculate_ascendant` lies in
`[0, 360)`. -/
theorem c1_solver_outputs_in_range (jd : ℝ) :
    (0 ≤ calculate_sun_longitude jd ∧ calculate_sun_longitude jd < 360) ∧
    (0 ≤ calculate_moon_longitude jd ∧ calculate_moon_longitude jd < 360) ∧
    (∀ planet el precomputed, planetary_elements planet = some el →
      0 ≤ calculate_planet_longitude planet jd precomputed ∧
        calculate_planet_longitude planet jd precomputed < 360) ∧
    (0 ≤ (calculate_rahu_ketu jd).1 ∧ (calculate_rahu_ketu jd).1 < 360) ∧
    (0 ≤ (calculate_rahu_ketu jd).2 ∧ (calculate_rahu_ketu jd).2 < 360) ∧
    (∀ lat lon : ℝ, -90 < lat → lat < 90 →
      0 ≤ calculate_ascendant jd lat lon ∧ calculate_ascendant jd lat lon < 360) := by
  refine ⟨⟨?_, ?_⟩, ⟨?_, ?_⟩, ?_, ⟨?_, ?_⟩, ⟨?_, ?_⟩, ?_⟩
  · exact fmod_nonneg _ (by norm_num)
  · exact fmod_lt _ (by norm_num)
  · exact fmod_nonneg _ (by norm_num)
  · exact fmod_lt _ (by norm_num)
  · intro planet el precomputed h
    rw [calculate_planet_longitude, calcPlanetAux, h]
    exact ⟨fmod_nonneg _ (by norm_num), fmod_lt _ (by norm_num)⟩
  · exact fmod_nonneg _ (by norm_num)
  · exact fmod_lt _ (by norm_num)
  · exact fmod_nonneg _ (by norm_num)
  · exact fmod_lt _ (by norm_num)
  · intro lat lon _ _
    exact ⟨fmod_nonneg _ (by norm_num), fmod_lt _ (by norm_num)⟩

/-- Witness for C1 at `jd = 2451545`, planet `Sun`, `lat = 13`, `lon = 80`. -/
theorem c1_witness :
    planetary_elements "Sun" = some ⟨280.46646, 36000.76983, 0.016708634⟩ ∧
    (-90 : ℝ) < 13 ∧ (13 : ℝ) < 90 ∧
    (0 ≤ calculate_sun_longitude 2451545 ∧ calculate_sun_longitude 2451545 < 360) ∧
    (0 ≤ calculate_planet_longitude "Sun" 2451545 ∅ ∧
      calculate_planet_longitude "Sun" 2451545 ∅ < 360) ∧
    (0 ≤ calculate_ascendant 2451545 13 80 ∧ calculate_ascendant 2451545 13 80 < 360) :=
  ⟨rfl, by norm_num, by norm_num,
    (c1_solver_outputs_in_range 2451545).1,
    (c1_solver_outputs_in_range 2451545).2.2.1 "Sun" _ ∅ rfl,
    (c1_solver_outputs_in_range 2451545).2.2.2.2.2 13 80 (by norm_num) (by norm_num)⟩

theorem house_floor_bounds {x : ℝ} (h0 : 0 ≤ x) (h1 : x < 360) :
    0 ≤ ⌊x / 30⌋ ∧ ⌊x / 30⌋ ≤ 11 := by
  constructor
  · exact Int.floor_nonneg.mpr (by positivity)
  · have : ⌊x / 30⌋ < 12 := Int.floor_lt.mpr (by
      rw [div_lt_iff₀ (by norm_num : (0:ℝ) < 30)]
      push_cast
      linarith)
    omega

theorem house_eq_floor (l a : ℝ) :
    get_house_from_ascendant l a = ⌊fmod (l - a + 360) 360 / 30⌋ + 1 := by
  have hb := house_floor_bounds (fmod_nonneg (l - a + 360) (by norm_num : (0:ℝ) < 360))
    (fmod_lt (l - a + 360) (by norm_num : (0:ℝ) < 360))
  simp only [get_house_from_ascendant]
  rw [if_pos (by omega)]

/-- C2: `get_house_from_ascendant` computes
`floor(((longitude − ascendant + 360) mod 360) / 30) + 1`; its value always
lies in `[1, 12]`; a longitude gets house `k + 1` exactly when its offset
from the ascendant falls in the k-th 30° arc (so the twelve arcs starting at
the ascendant map bijectively onto houses 1..12, each arc being hit, e.g., by
the longitude `ascendant + 30k`); and the ascendant itself is in house 1. -/
theorem c2_house_mapping :
    (∀ l a : ℝ, get_house_from_ascendant l a = ⌊fmod (l - a + 360) 360 / 30⌋ + 1) ∧
    (∀ l a : ℝ, 1 ≤ get_house_from_ascendant l a ∧ get_house_from_ascendant l a ≤ 12) ∧
    (∀ (l a : ℝ) (k : ℤ), 0 ≤ k → k < 12 →
      (get_house_from_ascendant l a = k + 1 ↔
        30 * (k : ℝ) ≤ fmod (l - a + 360) 360 ∧ fmod (l - a + 360) 360 < 30 * (k : ℝ) + 30)) ∧
    (∀ (a : ℝ) (k : ℤ), 0 ≤ k → k < 12 →
      get_house_from_ascendant (a + 30 * (k : ℝ)) a = k + 1) ∧
    (∀ a : ℝ, get_house_from_ascendant a a = 1) := by
  have harc : ∀ (l a : ℝ) (k : ℤ), 0 ≤ k → k < 12 →
      (get_house_from_ascendant l a = k + 1 ↔
        30 * (k : ℝ) ≤ fmod (l - a + 360) 360 ∧ fmod (l - a + 360) 360 < 30 * (k : ℝ) + 30) := by
    intro l a k _ _
    rw [house_eq_floor]
    have step1 : (⌊fmod (l - a + 360) 360 / 30⌋ + 1 = k + 1) ↔
        ⌊fmod (l - a + 360) 360 / 30⌋ = k := by omega
    rw [step1, Int.floor_eq_iff, le_div_iff₀ (by norm_num : (0:ℝ) < 30),
      div_lt_iff₀ (by norm_num : (0:ℝ) < 30)]
    constructor
    · rintro ⟨u, v⟩
      exact ⟨by linarith, by linarith⟩
    · rintro ⟨u, v⟩
      exact ⟨by linarith, by linarith⟩
  refine ⟨fun l a => house_eq_floor l a, ?_, harc, ?_, ?_⟩
  · intro l a
    have hb := house_floor_bounds (fmod_nonneg (l - a + 360) (by norm_num : (0:ℝ) < 360))
      (fmod_lt (l - a + 360) (by norm_num : (0:ℝ) < 360))
    rw [house_eq_floor]
    omega
  · intro a k hk0 hk12
    refine (harc _ _ k hk0 hk12).mpr ?_
    have harg : a + 30 * (k : ℝ) - a + 360 = 30 * (k : ℝ) + 360 * ((1 : ℤ) : ℝ) := by
      push_cast
      ring
    have hval : fmod (a + 30 * (k : ℝ) - a + 360) 360 = 30 * (k : ℝ) := by
      rw [harg, fmod_add_int_mul _ (by norm_num : (360:ℝ) ≠ 0)]
      refine fmod_eq_self (by norm_num) (by positivity) ?_
      have : (k : ℝ) < 12 := by exact_mod_cast hk12
      linarith
    rw [hval]
    constructor
    · linarith
    · linarith
  · intro a
    rw [house_eq_floor]
    have harg : a - a + 360 = 0 + 360 * ((1 : ℤ) : ℝ) := by push_cast; ring
    have hval : fmod (a - a + 360) 360 = 0 := by
      rw [harg, fmod_add_int_mul _ (by norm_num : (360:ℝ) ≠ 0)]
      exact fmod_eq_self (by norm_num) (by norm_num) (by norm_num)
    rw [hval]
    norm_num

/-- Witness for C2 at `longitude = 75`, `ascendant = 10`, arc index `k = 2`. -/
theorem c2_witness :
    (get_house_from_ascendant 75 10 = ⌊fmod ((75 : ℝ) - 10 + 360) 360 / 30⌋ + 1) ∧
    (1 ≤ get_house_from_ascendant 75 10 ∧ get_house_from_ascendant 75 10 ≤ 12) ∧
    ((0 : ℤ) ≤ 2 ∧ (2 : ℤ) < 12) ∧
    (get_house_from_ascendant 75 10 = 2 + 1 ↔
      30 * ((2 : ℤ) : ℝ) ≤ fmod ((75 : ℝ) - 10 + 360) 360 ∧
        fmod ((75 : ℝ) - 10 + 360) 360 < 30 * ((2 : ℤ) : ℝ) + 30) ∧
    (get_house_from_ascendant ((10 : ℝ) + 30 * ((2 : ℤ) : ℝ)) 10 = 2 + 1) ∧
    get_house_from_ascendant 10 10 = 1 :=
  ⟨c2_house_mapping.1 75 10, c2_house_mapping.2.1 75 10, ⟨by norm_num, by norm_num⟩,
    c2_house_mapping.2.2.1 75 10 2 (by norm_num) (by norm_num),
    c2_house_mapping.2.2.2.1 10 2 (by norm_num) (by norm_num),
    c2_house_mapping.2.2.2.2 10⟩

/-- C3: the two components returned by `calculate_rahu_ketu` differ by
exactly 180° modulo 360 (hence in particular to within 1e−9). -/
theorem c3_rahu_ketu_antipodal (jd : ℝ) :
    fmod ((calculate_rahu_ketu jd).2 - (calculate_rahu_ketu jd).1) 360 = 180 ∧
    |fmod ((calculate_rahu_ketu jd).2 - (calculate_rahu_ketu jd).1) 360 - 180| ≤ 1e-9 := by
  have main : fmod ((calculate_rahu_ketu jd).2 - (calculate_rahu_ketu jd).1) 360 = 180 := by
    simp only [calculate_rahu_ketu]
    obtain ⟨k1, h1⟩ := fmod_sub_int
      (fmod (125.0445479 - 1934.1362891 * ((jd - 2451545.0) / 36525.0) +
        0.0020754 * ((jd - 2451545.0) / 36525.0) * ((jd - 2451545.0) / 36525.0) +
        ((jd - 2451545.0) / 36525.0) * ((jd - 2451545.0) / 36525.0) *
          ((jd - 2451545.0) / 36525.0) / 467441.0) 360 + 180)
    obtain ⟨k2, h2⟩ := fmod_sub_int
      (fmod (fmod (125.0445479 - 1934.1362891 * ((jd - 2451545.0) / 36525.0) +
        0.0020754 * ((jd - 2451545.0) / 36525.0) * ((jd - 2451545.0) / 36525.0) +
        ((jd - 2451545.0) / 36525.0) * ((jd - 2451545.0) / 36525.0) *
          ((jd - 2451545.0) / 36525.0) / 467441.0) 360 + 180) 360 -
        calculate_lahiri_ayanamsa jd)
    obtain ⟨k3, h3⟩ := fmod_sub_int
      (fmod (125.0445479 - 1934.1362891 * ((jd - 2451545.0) / 36525.0) +
        0.0020754 * ((jd - 2451545.0) / 36525.0) * ((jd - 2451545.0) / 36525.0) +
        ((jd - 2451545.0) / 36525.0) * ((jd - 2451545.0) / 36525.0) *
          ((jd - 2451545.0) / 36525.0) / 467441.0) 360 -
        calculate_lahiri_ayanamsa jd)
    have hdiff : fmod (fmod (125.0445479 - 1934.1362891 * ((jd - 2451545.0) / 36525.0) +
        0.0020754 * ((jd - 2451545.0) / 36525.0) * ((jd - 2451545.0) / 36525.0) +
        ((jd - 2451545.0) / 36525.0) * ((jd - 2451545.0) / 36525.0) *
          ((jd - 2451545.0) / 36525.0) / 467441.0) 360 + 180) 360 -
        calculate_lahiri_ayanamsa jd -
        360 * k2 -
        (fmod (125.0445479 - 1934.1362891 * ((jd - 2451545.0) / 36525.0) +
          0.0020754 * ((jd - 2451545.0) / 36525.0) * ((jd - 2451545.0) / 36525.0) +
          ((jd - 2451545.0) / 36525.0) * ((jd - 2451545.0) / 36525.0) *
            ((jd - 2451545.0) / 36525.0) / 467441.0) 360 -
          calculate_lahiri_ayanamsa jd - 360 * k3) =
        180 + 360 * ((k3 - k1 - k2 : ℤ) : ℝ) := by
      rw [h1]
      push_cast
      ring
    rw [h2, h3, hdiff, fmod_add_int_mul _ (by norm_num), fmod_eq_self (by norm_num)
      (by norm_num) (by norm_num)]
  exact ⟨main, by rw [main]; norm_num⟩

/-- When the guard set already contains the partner body, neither
perturbation branch of `calculate_planet_longitude` can fire, so the amount
of fuel is irrelevant. -/
theorem calcPlanetAux_no_recursion (fuel : ℕ) (planet : String) (jd : ℝ)
    (pre : Finset String)
    (hJ : planet = "Jupiter" → "Saturn" ∈ pre)
    (hS : planet = "Saturn" → "Jupiter" ∈ pre) :
    calcPlanetAux fuel planet jd pre = calcPlanetAux 0 planet jd pre := by
  cases fuel with
  | zero => rfl
  | succ n =>
    rw [calcPlanetAux, calcPlanetAux]
    cases helems : planetary_elements planet with
    | none => rfl
    | some el =>
      simp only
      rw [if_neg, if_neg]
      · rintro ⟨hp, hmem⟩
        exact hmem (hS hp)
      · rintro ⟨hp, hmem⟩
        exact hmem (hJ hp)

/-- Value of a call whose perturbation branches are blocked by the guard set,
for a body with tabulated elements: the uncorrected sidereal longitude. -/
theorem calcPlanetAux_guarded (fuel : ℕ) (planet : String) (jd : ℝ)
    (pre : Finset String)
    (hJ : planet = "Jupiter" → "Saturn" ∈ pre)
    (hS : planet = "Saturn" → "Jupiter" ∈ pre)
    (el : OrbitalElements) (h : planetary_elements planet = some el) :
    calcPlanetAux fuel planet jd pre =
      fmod (keplerTrueLongitude planet jd - calculate_lahiri_ayanamsa jd) 360 := by
  rw [calcPlanetAux_no_recursion fuel planet jd pre hJ hS, calcPlanetAux, h]

/-- One unit of fuel already realizes the full one-level Jupiter/Saturn
mutual perturbation: the inner recursive call never recurses again. -/
theorem calcPlanetAux_fuel_irrelevant (fuel : ℕ) (planet : String) (jd : ℝ)
    (pre : Finset String) :
    calcPlanetAux (fuel + 1) planet jd pre = calcPlanetAux 1 planet jd pre := by
  rw [calcPlanetAux, calcPlanetAux]
  cases helems : planetary_elements planet with
  | none => rfl
  | some el =>
    simp only
    by_cases hj : planet = "Jupiter" ∧ "Saturn" ∉ pre
    · rw [if_pos hj, if_pos hj,
        calcPlanetAux_no_recursion fuel "Saturn" jd (insert "Jupiter" pre)
          (by intro heq; exact absurd heq (by decide))
          (fun _ => Finset.mem_insert_self _ _),
        calcPlanetAux_no_recursion 0 "Saturn" jd (insert "Jupiter" pre)
          (by intro heq; exact absurd heq (by decide))
          (fun _ => Finset.mem_insert_self _ _)]
    · rw [if_neg hj, if_neg hj]
      by_cases hs : planet = "Saturn" ∧ "Jupiter" ∉ pre
      · rw [if_pos hs, if_pos hs,
          calcPlanetAux_no_recursion fuel "Jupiter" jd (insert "Saturn" pre)
            (fun _ => Finset.mem_insert_self _ _)
            (by intro heq; exact absurd heq (by decide)),
          calcPlanetAux_no_recursion 0 "Jupiter" jd (insert "Saturn" pre)
            (fun _ => Finset.mem_insert_self _ _)
            (by intro heq; exact absurd heq (by decide))]
      · rw [if_neg hs, if_neg hs]

/-- C4, counterexample: the inner guarded Saturn call — the exact value the
code feeds into Jupiter's correction term when Jupiter is solved with an
empty in-progress set — is not Saturn's uncorrected true longitude at
`jd = 2451545`: it is the ayanamsa-subtracted (sidereal) normalization of it,
and the ayanamsa there is 23.85°, not a multiple of 360°. -/
theorem c4_counterexample :
    calculate_planet_longitude "Saturn" 2451545 {"Jupiter"} ≠
      keplerTrueLongitude "Saturn" 2451545 := by
  intro heq
  have hval : calculate_planet_longitude "Saturn" 2451545 {"Jupiter"} =
      fmod (keplerTrueLongitude "Saturn" 2451545 - calculate_lahiri_ayanamsa 2451545) 360 :=
    calcPlanetAux_guarded 2 "Saturn" 2451545 {"Jupiter"}
      (by intro hne; exact absurd hne (by decide))
      (fun _ => Finset.mem_singleton_self _) _ rfl
  have hay : calculate_lahiri_ayanamsa 2451545 = 23.85 := by
    simp only [calculate_lahiri_ayanamsa]
    norm_num
  rw [hval, hay] at heq
  simp only [fmod] at heq
  set S := keplerTrueLongitude "Saturn" 2451545 with hS
  have hk : (⌊(S - 23.85) / 360⌋ : ℝ) = -23.85 / 360 := by linarith
  have hcast : (800 : ℝ) * (⌊(S - 23.85) / 360⌋ : ℝ) = -53 := by
    rw [hk]
    norm_num
  have : (800 * ⌊(S - 23.85) / 360⌋ : ℤ) = -53 := by exact_mod_cast hcast
  omega

/-- C4, amended: for every Julian Day, when Jupiter is solved with an empty
in-progress set the correction added to its true longitude is
`0.33·sin(2·(Jupiter − saturn_long))` degrees where `saturn_long` is the
inner guarded Saturn call — Saturn's uncorrected *sidereal* longitude, i.e.
its true longitude minus the ayanamsa, normalized mod 360 (not Saturn's
uncorrected true longitude); symmetrically for Saturn with
`0.81·sin(2·(Saturn − jupiter_long))`. -/
theorem c4_perturbation_terms (jd : ℝ) :
    calculate_planet_longitude "Saturn" jd {"Jupiter"} =
      fmod (keplerTrueLongitude "Saturn" jd - calculate_lahiri_ayanamsa jd) 360 ∧
    calculate_planet_longitude "Jupiter" jd {"Saturn"} =
      fmod (keplerTrueLongitude "Jupiter" jd - calculate_lahiri_ayanamsa jd) 360 ∧
    calculate_planet_longitude "Jupiter" jd ∅ =
      fmod (keplerTrueLongitude "Jupiter" jd +
        0.33 * Real.sin (radians (2 * (keplerTrueLongitude "Jupiter" jd -
          calculate_planet_longitude "Saturn" jd {"Jupiter"}))) -
        calculate_lahiri_ayanamsa jd) 360 ∧
    calculate_planet_longitude "Saturn" jd ∅ =
      fmod (keplerTrueLongitude "Saturn" jd +
        0.81 * Real.sin (radians (2 * (keplerTrueLongitude "Saturn" jd -
          calculate_planet_longitude "Jupiter" jd {"Saturn"}))) -
        calculate_lahiri_ayanamsa jd) 360 := by
  have hsat : calculate_planet_longitude "Saturn" jd {"Jupiter"} =
      fmod (keplerTrueLongitude "Saturn" jd - calculate_lahiri_ayanamsa jd) 360 :=
    calcPlanetAux_guarded 2 "Saturn" jd {"Jupiter"}
      (by intro hne; exact absurd hne (by decide))
      (fun _ => Finset.mem_singleton_self _) _ rfl
  have hjup : calculate_planet_longitude "Jupiter" jd {"Saturn"} =
      fmod (keplerTrueLongitude "Jupiter" jd - calculate_lahiri_ayanamsa jd) 360 :=
    calcPlanetAux_guarded 2 "Jupiter" jd {"Saturn"}
      (fun _ => Finset.mem_singleton_self _)
      (by intro hne; exact absurd hne (by decide)) _ rfl
  refine ⟨hsat, hjup, ?_, ?_⟩
  · rw [calculate_planet_longitude, calcPlanetAux]
    simp only
    rw [if_pos (by simp)]
    rw [calcPlanetAux_guarded 1 "Saturn" jd (insert "Jupiter" ∅)
      (by intro hne; exact absurd hne (by decide))
      (fun _ => Finset.mem_insert_self _ _) _ rfl, hsat]
    rfl
  · rw [calculate_planet_longitude, calcPlanetAux]
    simp only
    rw [if_neg (by rintro ⟨hp, _⟩; exact absurd hp (by decide)),
      if_pos (by simp)]
    rw [calcPlanetAux_guarded 1 "Jupiter" jd (insert "Saturn" ∅)
      (fun _ => Finset.mem_insert_self _ _)
      (by intro hne; exact absurd hne (by decide)) _ rfl, hjup]
    rfl

/-- Characterization of the capped fixed-point loop: the result is the k-th
iterate of the step map for the least `k ≤ n` at which two successive
estimates come within 1e−8 of each other (or `k = n` if none does). -/
theorem keplerLoop_spec (M_rad e : ℝ) :
    ∀ (n : ℕ) (E : ℝ), ∃ k, k ≤ n ∧
      keplerLoop M_rad e n E = (keplerStep M_rad e)^[k] E ∧
      (∀ i, i < k →
        ¬(|(keplerStep M_rad e)^[i + 1] E - (keplerStep M_rad e)^[i] E| < 1e-8)) ∧
      (k < n →
        |(keplerStep M_rad e)^[k + 1] E - (keplerStep M_rad e)^[k] E| < 1e-8) := by
  intro n
  induction n with
  | zero =>
    intro E
    exact ⟨0, le_refl 0, rfl, fun i hi => absurd hi (Nat.not_lt_zero i),
      fun h => absurd h (lt_irrefl 0)⟩
  | succ n ih =>
    intro E
    by_cases hP : |keplerStep M_rad e E - E| < 1e-8
    · refine ⟨0, Nat.zero_le _, ?_, fun i hi => absurd hi (Nat.not_lt_zero i), fun _ => ?_⟩
      · rw [keplerLoop]
        rw [if_pos hP]
        exact (Function.iterate_zero_apply _ _).symm
      · simpa using hP
    · obtain ⟨k, hk, hEq, hmin, hconv⟩ := ih (keplerStep M_rad e E)
      refine ⟨k + 1, Nat.succ_le_succ hk, ?_, ?_, ?_⟩
      · rw [keplerLoop]
        rw [if_neg hP, hEq, Function.iterate_succ_apply]
      · intro i hi
        cases i with
        | zero => simpa using hP
        | succ j =>
          have hj := hmin j (Nat.lt_of_succ_lt_succ hi)
          simpa [Function.iterate_succ_apply] using hj
      · intro hlt
        have hc := hconv (Nat.lt_of_succ_lt_succ hlt)
        simpa [Function.iterate_succ_apply] using hc

/-- C6: the Kepler fixed-point iteration starts at `E0 = M + e·sin M`,
performs at most 10 steps of `E ↦ M + e·sin E`, stopping as soon as two
successive estimates differ by less than 1e−8; and the solver as a whole
always terminates — one unit of recursion fuel already gives the final value
of `calculate_planet_longitude`, the Jupiter/Saturn mutual recursion being
cut after one level. -/
theorem c6_kepler_loop_contract :
    (∀ M_rad e : ℝ, ∃ k, k ≤ 10 ∧
      solveKepler M_rad e = (keplerStep M_rad e)^[k] (M_rad + e * Real.sin M_rad) ∧
      (∀ i, i < k →
        ¬(|(keplerStep M_rad e)^[i + 1] (M_rad + e * Real.sin M_rad) -
            (keplerStep M_rad e)^[i] (M_rad + e * Real.sin M_rad)| < 1e-8)) ∧
      (k < 10 →
        |(keplerStep M_rad e)^[k + 1] (M_rad + e * Real.sin M_rad) -
          (keplerStep M_rad e)^[k] (M_rad + e * Real.sin M_rad)| < 1e-8)) ∧
    (∀ (fuel : ℕ) (planet : String) (jd : ℝ) (precomputed : Finset String),
      1 ≤ fuel →
      calcPlanetAux fuel planet jd precomputed = calcPlanetAux 1 planet jd precomputed) := by
  constructor
  · intro M_rad e
    exact keplerLoop_spec M_rad e 10 (M_rad + e * Real.sin M_rad)
  · intro fuel planet jd precomputed hfuel
    cases fuel with
    | zero => exact absurd hfuel (by norm_num)
    | succ n => exact calcPlanetAux_fuel_irrelevant n planet jd precomputed

/-- Witness for C6 at `M = 0`, `e = 0` and fuel 2 for Mars. -/
theorem c6_witness :
    (∃ k, k ≤ 10 ∧
      solveKepler 0 0 = (keplerStep 0 0)^[k] (0 + 0 * Real.sin 0) ∧
      (∀ i, i < k →
        ¬(|(keplerStep 0 0)^[i + 1] (0 + 0 * Real.sin 0) -
            (keplerStep 0 0)^[i] (0 + 0 * Real.sin 0)| < 1e-8)) ∧
      (k < 10 →
        |(keplerStep 0 0)^[k + 1] (0 + 0 * Real.sin 0) -
          (keplerStep 0 0)^[k] (0 + 0 * Real.sin 0)| < 1e-8)) ∧
    (1 : ℕ) ≤ 2 ∧
    calcPlanetAux 2 "Mars" 0 ∅ = calcPlanetAux 1 "Mars" 0 ∅ :=
  ⟨c6_kepler_loop_contract.1 0 0, by norm_num,
    c6_kepler_loop_contract.2 2 "Mars" 0 ∅ (by norm_num)⟩

theorem planetFold_keys (jd : ℝ) :
    ∀ (ps : List String) (pre : Finset String),
      (planetFold jd ps pre).map Prod.fst = ps := by
  intro ps
  induction ps with
  | nil => intro pre; rfl
  | cons p rest ih =>
    intro pre
    simp [planetFold, ih]

theorem buildChart_keys (d : PyDateTime) (lat lon tz : ℝ) (bd bt bp : String) :
    (buildChart d lat lon tz bd bt bp).planets.map Prod.fst =
      ["Sun", "Moon", "Mercury", "Venus", "Mars", "Jupiter", "Saturn", "Rahu", "Ketu"] := by
  simp [buildChart, List.map_map, Function.comp_def, planetFold_keys]

/-- C7, counterexample: on birth input `("0001-01-01", "00:00", "Chennai")`
parsing succeeds (year 1 is valid for `%Y`) and Chennai is in the city table
with UTC offset +5.5, yet the code still returns an error dict: the UTC
conversion `datetime(1, 1, 1, 0, 0) - timedelta(hours=5.5)` overflows below
`datetime.min` and the `except` handler catches the `OverflowError`. So the
program has an error case that is reached although the date/time parses and
the place is found, refuting the claimed dichotomy. -/
theorem c7_counterexample :
    (∃ msg, calculate_complete_chart oParse oSub oCities "0001-01-01" "00:00" "Chennai" =
      Except.error msg) ∧
    oParse "0001-01-01" "00:00" ≠ none ∧ oCities "Chennai" ≠ none :=
  ⟨⟨"Calculation error: date value out of range", rfl⟩,
    by simp [oParse], by simp [oCities]⟩

/-- C7, amended: for every input triple, `calculate_complete_chart` returns
an explicit error result exactly when the date/time cannot be parsed, when
the place is missing from the city table, or — with parse and lookup both
successful — when the UTC-conversion datetime subtraction overflows (an
exception turned into an error result by the `except` handler); otherwise it
returns a chart whose planet map holds all nine bodies in the fixed order.
The embedded function is total, so no exception escapes, and no partially
filled chart exists. -/
theorem c7_chart_all_or_nothing (parse : String → String → Option PyDateTime)
    (subHours : PyDateTime → ℝ → Option PyDateTime)
    (cities : String → Option (ℝ × ℝ × ℝ)) (bd bt bp : String) :
    match calculate_complete_chart parse subHours cities bd bt bp with
    | Except.error _ => parse bd bt = none ∨ cities bp = none ∨
        ∃ d tri, parse bd bt = some d ∧ cities bp = some tri ∧ subHours d tri.2.2 = none
    | Except.ok chart =>
        (∃ d tri utc, parse bd bt = some d ∧ cities bp = some tri ∧
          subHours d tri.2.2 = some utc) ∧
        chart.planets.map Prod.fst =
          ["Sun", "Moon", "Mercury", "Venus", "Mars", "Jupiter", "Saturn", "Rahu", "Ketu"] := by
  cases hp : parse bd bt with
  | none => simp [calculate_complete_chart, hp]
  | some d =>
    cases hc : cities bp with
    | none => simp [calculate_complete_chart, hp, hc]
    | some triple =>
      obtain ⟨lat, lon, tz⟩ := triple
      cases hs : subHours d tz with
      | none =>
        simp only [calculate_complete_chart, hp, hc, hs]
        exact Or.inr (Or.inr ⟨d, (lat, lon, tz), rfl, rfl, hs⟩)
      | some utc =>
        simp only [calculate_complete_chart, hp, hc, hs]
        exact ⟨⟨d, (lat, lon, tz), utc, rfl, rfl, hs⟩,
          buildChart_keys utc lat lon tz bd bt bp⟩

theorem calcPlanetState_empty (p : String) : calcPlanetState p ∅ = ∅ := by
  rw [calcPlanetState]
  cases planetary_elements p with
  | none => rfl
  | some el => simp

theorem planetFold_five (jd : ℝ) :
    planetFold jd ["Mercury", "Venus", "Mars", "Jupiter", "Saturn"] ∅ =
      [("Mercury", calculate_planet_longitude "Mercury" jd ∅),
       ("Venus", calculate_planet_longitude "Venus" jd ∅),
       ("Mars", calculate_planet_longitude "Mars" jd ∅),
       ("Jupiter", calculate_planet_longitude "Jupiter" jd ∅),
       ("Saturn", calculate_planet_longitude "Saturn" jd ∅)] := by
  simp [planetFold, calcPlanetState_empty]

/-- C5: if `calculate_complete_chart` succeeds, the Saturn entry of the
chart carries exactly the longitude of a direct
`calculate_planet_longitude("Saturn", jd, {})` query with a fresh empty
guard at the chart's own Julian Day: the in-progress guard is effectively
scoped per top-level body request (the orchestrator's shared dict never
accumulates entries, because the callee rebinds an empty dict to a fresh
one). -/
theorem c5_saturn_guard_scoped (parse : String → String → Option PyDateTime)
    (subHours : PyDateTime → ℝ → Option PyDateTime)
    (cities : String → Option (ℝ × ℝ × ℝ)) (bd bt bp : String) (chart : Chart)
    (h : calculate_complete_chart parse subHours cities bd bt bp = Except.ok chart) :
    ∃ pl, chart.planets.lookup "Saturn" = some pl ∧
      pl.longitude = calculate_planet_longitude "Saturn" chart.julian_day ∅ := by
  cases hp : parse bd bt with
  | none => rw [calculate_complete_chart, hp] at h; exact absurd h (by simp)
  | some d =>
    cases hc : cities bp with
    | none => rw [calculate_complete_chart, hp, hc] at h; exact absurd h (by simp)
    | some triple =>
      obtain ⟨lat, lon, tz⟩ := triple
      rw [calculate_complete_chart, hp, hc] at h
      cases hs : subHours d tz with
      | none => simp [hs] at h
      | some utc =>
        simp only [hs, Except.ok.injEq] at h
        subst h
        refine ⟨mkPlacement
          (calculate_planet_longitude "Saturn" (calculate_accurate_julian_day utc) ∅)
          (buildChart utc lat lon tz bd bt bp).ascendant
          (buildChart utc lat lon tz bd bt bp).navamsa_ascendant, ?_, rfl⟩
        simp [buildChart, planetFold, calcPlanetState_empty, List.lookup, mkPlacement]

/-- Witness for C5 on concrete collaborators and inputs. -/
theorem c5_witness :
    calculate_complete_chart wParse wSub wCities "2000-01-01" "12:00" "Chennai" =
      Except.ok wChart ∧
    ∃ pl, wChart.planets.lookup "Saturn" = some pl ∧
      pl.longitude = calculate_planet_longitude "Saturn" wChart.julian_day ∅ :=
  ⟨rfl, c5_saturn_guard_scoped wParse wSub wCities "2000-01-01" "12:00" "Chennai" wChart rfl⟩

/-- C8, counterexample: at longitude 3.333333 (inside `[0, 360)`), the code
computes segment `int(3.333333 / 3.333333) = 1` although 3.333333° still lies
in the first of the nine equal 3°20′ (= 10/3°) divisions of the sign, whose
index is 0; so `navamsa_sign_num` disagrees with the claimed formula built
from the exact nine-division index. -/
theorem c8_counterexample :
    (0 : ℝ) ≤ 3.333333 ∧ (3.333333 : ℝ) < 360 ∧
    navamsa_sign_num 3.333333 = 1 ∧ spec_navamsa_sign_num 3.333333 = 0 ∧
    navamsa_sign_num 3.333333 ≠ spec_navamsa_sign_num 3.333333 := by
  have hsign : ⌊(3.333333 : ℝ) / 30⌋ = 0 := by
    rw [Int.floor_eq_iff]
    norm_num
  have hdeg : fmod (3.333333 : ℝ) 30 = 3.333333 :=
    fmod_eq_self (by norm_num) (by norm_num) (by norm_num)
  have hcode : navamsa_sign_num 3.333333 = 1 := by
    have hseg : truncInt ((3.333333 : ℝ) / 3.333333) = 1 := by
      have : (3.333333 : ℝ) / 3.333333 = 1 := by norm_num
      rw [truncInt, this, if_pos (by norm_num)]
      norm_num
    simp only [navamsa_sign_num, hdeg, hsign, hseg]
    norm_num
  have hspec : spec_navamsa_sign_num 3.333333 = 0 := by
    have hseg : ⌊fmod (3.333333 : ℝ) 30 / (10 / 3)⌋ = 0 := by
      rw [hdeg, Int.floor_eq_iff]
      norm_num
    simp only [spec_navamsa_sign_num, hsign, hseg]
    norm_num
  exact ⟨by norm_num, by norm_num, hcode, hspec, by rw [hcode, hspec]; norm_num⟩

/-- C8, amended: for every longitude in `[0, 360)`,
`navamsa_sign_num = (sign_index + offset + segment) mod 12` with the offset
table 0/8/4 for `sign_index mod 3` equal to 0/1/2, but with
`segment = floor(degree_in_sign / 3.333333)` — the literal divisor 3.333333,
not the exact division width 10/3 — which ranges over `[0, 9]`, not `[0, 8]`. -/
theorem c8_navamsa_formula (l : ℝ) (h0 : 0 ≤ l) (h1 : l < 360) :
    navamsa_sign_num l =
      (⌊l / 30⌋ +
        (if ⌊l / 30⌋ % 3 = 0 then 0 else if ⌊l / 30⌋ % 3 = 1 then 8 else 4) +
        ⌊fmod l 30 / 3.333333⌋) % 12 ∧
    0 ≤ ⌊fmod l 30 / 3.333333⌋ ∧ ⌊fmod l 30 / 3.333333⌋ ≤ 9 := by
  have hd0 : 0 ≤ fmod l 30 := fmod_nonneg l (by norm_num)
  have hd1 : fmod l 30 < 30 := fmod_lt l (by norm_num)
  have htr : truncInt (fmod l 30 / 3.333333) = ⌊fmod l 30 / 3.333333⌋ := by
    rw [truncInt, if_pos (by positivity)]
  have hmain : navamsa_sign_num l =
      (⌊l / 30⌋ +
        (if ⌊l / 30⌋ % 3 = 0 then 0 else if ⌊l / 30⌋ % 3 = 1 then 8 else 4) +
        ⌊fmod l 30 / 3.333333⌋) % 12 := by
    simp only [navamsa_sign_num, htr]
    by_cases hc0 : ⌊l / 30⌋ % 3 = 0
    · rw [if_pos hc0, if_pos hc0]
      ring_nf
    · rw [if_neg hc0, if_neg hc0]
      by_cases hc1 : ⌊l / 30⌋ % 3 = 1
      · rw [if_pos hc1, if_pos hc1]
      · rw [if_neg hc1, if_neg hc1]
  refine ⟨hmain, Int.floor_nonneg.mpr (by positivity), ?_⟩
  have : ⌊fmod l 30 / 3.333333⌋ < 10 := Int.floor_lt.mpr (by
    rw [div_lt_iff₀ (by norm_num : (0:ℝ) < 3.333333)]
    push_cast
    linarith)
  omega

/-- Witness for C8 (amended) at longitude 45. -/
theorem c8_witness :
    (0 : ℝ) ≤ 45 ∧ (45 : ℝ) < 360 ∧
    (navamsa_sign_num 45 =
      (⌊(45 : ℝ) / 30⌋ +
        (if ⌊(45 : ℝ) / 30⌋ % 3 = 0 then 0 else if ⌊(45 : ℝ) / 30⌋ % 3 = 1 then 8 else 4) +
        ⌊fmod (45 : ℝ) 30 / 3.333333⌋) % 12 ∧
      0 ≤ ⌊fmod (45 : ℝ) 30 / 3.333333⌋ ∧ ⌊fmod (45 : ℝ) 30 / 3.333333⌋ ≤ 9) :=
  ⟨by norm_num, by norm_num, c8_navamsa_formula 45 (by norm_num) (by norm_num)⟩

/-- C9: at the pole (latitude 90°, where the spec demands a
`NumericDomainError` failure result), `calculate_ascendant` has no error
path at all: evaluated at `jd = 2451545`, `lat = 90`, `lon = 0`, it silently
returns a normalized longitude in `[0, 360)`. -/
theorem c9_pole_returns_longitude :
    0 ≤ calculate_ascendant 2451545 90 0 ∧ calculate_ascendant 2451545 90 0 < 360 :=
  ⟨fmod_nonneg _ (by norm_num), fmod_lt _ (by norm_num)⟩

theorem planetary_elements_eq_none {p : String}
    (h : p ∉ (["Sun", "Moon", "Mercury", "Venus", "Mars", "Jupiter", "Saturn"] : List String)) :
    planetary_elements p = none := by
  unfold planetary_elements
  split <;> simp_all

/-- C10: for every body name without tabulated orbital elements (any string
other than the seven keys of `planetary_elements`, so in particular Rahu and
Ketu), `calculate_planet_longitude` silently returns `0.0`. -/
theorem c10_unknown_planet_returns_zero (planet : String)
    (h : planet ∉ (["Sun", "Moon", "Mercury", "Venus", "Mars", "Jupiter", "Saturn"] : List String))
    (jd : ℝ) (precomputed : Finset String) :
    calculate_planet_longitude planet jd precomputed = 0 := by
  rw [calculate_planet_longitude, calcPlanetAux, planetary_elements_eq_none h]
  norm_num

/-- Witness for C10 at the body name `Rahu`. -/
theorem c10_witness :
    "Rahu" ∉ (["Sun", "Moon", "Mercury", "Venus", "Mars", "Jupiter", "Saturn"] : List String) ∧
    calculate_planet_longitude "Rahu" 2451545 ∅ = 0 :=
  ⟨by decide, c10_unknown_planet_returns_zero "Rahu" (by decide) 2451545 ∅⟩

end

end Horoscope
